import Mathlib

/-!
# Verification development for the `pcb_forge` PCB CAM pipeline

Shallow embedding of the parts of the program that the checked claims are
about, translated from the Rust sources:

* `src/gerber_file.rs` — Gerber coordinate internalization
  (`Format::internalize_coordinate_from_span`), line selection
  (`apply_line_selection`), attribute processing and region imaging
  (`PlottingContext::process_command` / `process_operation`);
* `src/geometry.rs` — interior-hole separation in
  `Shape::convert_to_geo_polygon` (`separator_function`);
* `src/parsing/drill.rs` — the XNC drill body parsers;
* `src/gcode_generation.rs` — the G-code emitter (`GCodeFile::to_string`);
* `src/main.rs` — the top-level error handling of `main`.

Real numbers (`f64` in the source) are modelled by `ℚ`, so the arithmetic
identities the code relies on are exact; machine integers carry their Rust
range checks explicitly.  Emitted G-code is modelled as a list of
structured lines, one constructor per `writeln!` format string in the
source.
-/

deriving instance DecidableEq for Except

/-- A 2-D point or vector of millimetre coordinates (`nalgebra::Vector2<f64>`). -/
abbrev Vec2 : Type := ℚ × ℚ

/-- Componentwise subtraction of `Vec2`, as `nalgebra`'s `-`. -/
def vecSub (a b : Vec2) : Vec2 := (a.1 - b.1, a.2 - b.2)

/-- The squared euclidean norm of a vector.  The Rust code computes
`.norm()` (a square root); two norms are equal exactly when the squared
norms are, so key comparisons below are unchanged by carrying the square. -/
def normSq (v : Vec2) : ℚ := v.1 ^ 2 + v.2 ^ 2

/-- Model of `parsing::UnitMode` (shared by the Gerber and drill parsers). -/
inductive GUnitMode : Type
  | metric
  | imperial
deriving DecidableEq

/-- Model of `parsing::gerber::Polarity`. -/
inductive Polarity : Type
  | clear
  | dark
deriving DecidableEq

/-- Model of `Polarity::inverse`. -/
def Polarity.inverse : Polarity → Polarity
  | .clear => .dark
  | .dark => .clear

/-! ## Gerber coordinate internalization (`gerber_file.rs`, `Format`) -/

/-- Model of `gerber_file::Format` (unit/format block of the plotting state). -/
structure GerberFormat : Type where
  integer_digits : ℕ
  decimal_digits : ℕ
  unit_mode : GUnitMode
deriving DecidableEq

/-- Value of a string of ASCII digits read in base 10. -/
def digitsToNat (cs : List Char) : ℕ :=
  cs.foldl (fun acc c => 10 * acc + (c.toNat - 48)) 0

/-- Rust's `str::parse::<i32>`: an optional sign, then a nonempty run of
digits, rejected when the value leaves the `i32` range. -/
def parseI32 (cs : List Char) : Option ℤ :=
  let signSplit : ℤ × List Char :=
    match cs with
    | '+' :: rest => (1, rest)
    | '-' :: rest => (-1, rest)
    | _ => (1, cs)
  let digits := signSplit.2
  if digits = [] then none
  else if digits.all Char.isDigit then
    let n : ℤ := signSplit.1 * (digitsToNat digits : ℤ)
    if n < -(2 ^ 31) ∨ 2 ^ 31 - 1 < n then none else some n
  else none

/-- Model of `Format::internalize_coordinate_from_float`: convert a parsed value to
millimetres (`uom` mil = 0.0254 mm). -/
def internalizeCoordinateFromFloat (fmt : GerberFormat) (coordinate : ℚ) : ℚ :=
  match fmt.unit_mode with
  | .metric => coordinate
  | .imperial => coordinate * (127 / 5000)

/-- Model of `Format::internalize_coordinate_from_span`, translated step by step:
the last `decimal_digits` characters are parsed as the decimal part, the
remainder (when nonempty) as the integer part, and the result is
`sign * (|integer| + |decimal| / 10 ^ decimal_digits)` with
`sign = integer.signum()`. -/
def internalizeCoordinateFromSpan (fmt : GerberFormat) (coordinate : String) :
    Except String ℚ := do
  let cs := coordinate.toList
  -- Get decimal part.
  let decimalStr := cs.drop (cs.length - fmt.decimal_digits)
  let decimal ← match parseI32 decimalStr with
    | some d => pure d
    | none => throw "internal decimal parsing error"
  let decimal := decimal.natAbs
  -- Get integer part.
  let integerStr := cs.take (cs.length - fmt.decimal_digits)
  let integer ← if integerStr ≠ [] then
      match parseI32 integerStr with
      | some i => pure i
      | none => throw "internal integer parsing error"
    else pure 0
  let sign := integer.sign
  let integer := integer.natAbs
  -- Combine, then convert to mm for internal representation.
  let newPosition : ℚ :=
    (sign : ℚ) * ((integer : ℚ) + (decimal : ℚ) / 10 ^ fmt.decimal_digits)
  pure (internalizeCoordinateFromFloat fmt newPosition)

/-- The specification's reading of a Gerber coordinate literal, stated for
comparison with `internalizeCoordinateFromSpan`: an optional sign, then
digits, with `value = sign * (integer_part + fractional_part * 10 ^ (-decimal_digits))`
where the fractional part is the last `decimal_digits` characters of the
digit span and the integer part is the remainder. -/
def specGerberCoordinateValue (fmt : GerberFormat) (coordinate : String) : Option ℚ :=
  let cs := coordinate.toList
  let signSplit : ℚ × List Char :=
    match cs with
    | '+' :: rest => (1, rest)
    | '-' :: rest => (-1, rest)
    | _ => (1, cs)
  let digits := signSplit.2
  if digits ≠ [] ∧ digits.all Char.isDigit then
    let fracPart := digits.drop (digits.length - fmt.decimal_digits)
    let intPart := digits.take (digits.length - fmt.decimal_digits)
    let value := signSplit.1 *
      ((digitsToNat intPart : ℚ) + (digitsToNat fracPart : ℚ) / 10 ^ fmt.decimal_digits)
    some (internalizeCoordinateFromFloat fmt value)
  else none

/-! ## Line selection (`gerber_file.rs`, `apply_line_selection`) -/

/-- A ring of a `geo` polygon, as its list of vertices. -/
abbrev GeoRing : Type := List Vec2

/-- Model of `geo::Polygon`: one exterior ring and a list of interior rings. -/
structure GeoPolygon : Type where
  exterior : GeoRing
  interiors : List GeoRing
deriving DecidableEq

/-- Model of `geo::MultiPolygon`: a list of polygons. -/
abbrev GeoMultiPolygon : Type := List GeoPolygon

/-- Model of `forge_file::LineSelection`. -/
inductive LineSelection : Type
  | all
  | inner
  | outer
deriving DecidableEq

/-- Model of `apply_line_selection` from `GerberFile::generate_gcode`: `all` keeps
the polygon set, `inner` promotes every interior ring to a hole-free
polygon, `outer` keeps every exterior ring and discards the holes. -/
def applyLineSelection (lineSelection : LineSelection) (polygon : GeoMultiPolygon) :
    GeoMultiPolygon :=
  match lineSelection with
  | .all => polygon
  | .inner =>
    polygon.flatMap fun polygon =>
      polygon.interiors.map fun interior => GeoPolygon.mk interior []
  | .outer =>
    polygon.map fun polygon => GeoPolygon.mk polygon.exterior []

/-- A concrete multipolygon with one interior ring: a 10×10 square with a
square hole. -/
def exMultiPolygon : GeoMultiPolygon :=
  [⟨[(0, 0), (10, 0), (10, 10), (0, 10), (0, 0)],
    [[(2, 2), (4, 2), (4, 4), (2, 4), (2, 2)]]⟩]

/-! ## Shapes and interior-hole separation (`geometry.rs`) -/

/-- Model of `geometry::Segment`. -/
inductive Segment : Type
  | line (endPoint : Vec2)
  | clockwiseCurve (endPoint : Vec2) (center : Vec2)
  | counterClockwiseCurve (endPoint : Vec2) (center : Vec2)
deriving DecidableEq

/-- Model of `Segment::end`. -/
def Segment.endPoint : Segment → Vec2
  | .line e => e
  | .clockwiseCurve e _ => e
  | .counterClockwiseCurve e _ => e

/-- Model of `geometry::Shape`. -/
structure Shape : Type where
  polarity : Polarity
  starting_point : Vec2
  segments : List Segment
deriving DecidableEq

/-- A shape is closed when its last segment ends at its starting point
(spec §3, "Closed when `last_segment.end == starting_point`"). -/
def Shape.isClosed (s : Shape) : Bool :=
  match s.segments.getLast? with
  | some seg => decide (seg.endPoint = s.starting_point)
  | none => decide (s.segments = [])

/-- The `SegmentInfo` key type local to `Shape::convert_to_geo_polygon`.
The Rust code keys arcs by the norm `|center − end|` (a `NotNan<f64>`);
we carry the squared norm, which induces exactly the same equality on
keys since both norms are nonnegative. -/
inductive SegmentInfo : Type
  | line
  | clockwise (diameterSq : ℚ)
  | counterClockwise (diameterSq : ℚ)
deriving DecidableEq

/-- Model of `SegmentInfo::inverse`. -/
def SegmentInfo.inverse : SegmentInfo → SegmentInfo
  | .line => .line
  | .clockwise d => .counterClockwise d
  | .counterClockwise d => .clockwise d

/-- The `SegmentInfo` computed for a segment in the
`Shape::convert_to_geo_polygon` dispatch loop. -/
def Segment.info : Segment → SegmentInfo
  | .line _ => .line
  | .clockwiseCurve e c => .clockwise (normSq (vecSub c e))
  | .counterClockwiseCurve e c => .counterClockwise (normSq (vecSub c e))

/-- Key of the `repeatable_segments` hash map: the segment's start point
paired with its descriptor. -/
abbrev SepKey : Type := Vec2 × SegmentInfo

/-- Association-list model of `HashMap<(NotNan, NotNan, SegmentInfo), usize>`. -/
abbrev SepMap : Type := List (SepKey × ℕ)

/-- Model of `HashMap::get`-style lookup (keys are unique in the list). -/
def sepMapFind : SepMap → SepKey → Option ℕ
  | [], _ => none
  | (k, v) :: rest, key => if k = key then some v else sepMapFind rest key

/-- Key removal, as performed by `HashMap::remove`. -/
def sepMapRemove (m : SepMap) (key : SepKey) : SepMap :=
  m.filter fun e => decide (e.1 ≠ key)

/-- Model of `HashMap::insert`: replaces any existing binding of the key. -/
def sepMapInsert (m : SepMap) (key : SepKey) (v : ℕ) : SepMap :=
  (key, v) :: sepMapRemove m key

/-- The mutable locals of `Shape::convert_to_geo_polygon`'s separation
loop (`starting_point`, `repeatable_segments`, `collected_segments`,
`shapes`). -/
structure SepState : Type where
  starting_point : Vec2
  repeatable_segments : SepMap
  collected_segments : List Segment
  shapes : List Shape
deriving DecidableEq

/-- Model of `separator_function` from `Shape::convert_to_geo_polygon`: when the
inverse descriptor recurs at the current start point, the segments since
its recorded index are drained and — when more than 2 — pushed as a
sub-shape with inverted polarity.  `none` models the panics the Rust code
would hit (`starting_index == 0` underflow or a stale out-of-range index). -/
def separatorFunction (polarity : Polarity) (st : SepState) (endPoint : Vec2)
    (segmentInfo : SegmentInfo) : Option SepState :=
  match sepMapFind st.repeatable_segments (st.starting_point, segmentInfo.inverse) with
  | some startingIndex =>
    match startingIndex, st.collected_segments.get? (startingIndex - 1) with
    | 0, _ => none
    | _ + 1, none => none
    | _ + 1, some seg =>
      let innerStart := seg.endPoint
      let drained := st.collected_segments.drop startingIndex
      let kept := st.collected_segments.take startingIndex
      let shapes :=
        if 2 < drained.length then
          st.shapes ++ [Shape.mk polarity.inverse innerStart drained]
        else st.shapes
      some
        { starting_point := endPoint
          repeatable_segments :=
            sepMapInsert (sepMapRemove st.repeatable_segments (st.starting_point, segmentInfo.inverse))
              (st.starting_point, segmentInfo) kept.length
          collected_segments := kept
          shapes := shapes }
  | none =>
    some
      { starting_point := endPoint
        repeatable_segments :=
          sepMapInsert st.repeatable_segments (st.starting_point, segmentInfo)
            st.collected_segments.length
        collected_segments := st.collected_segments
        shapes := st.shapes }

/-- One iteration of the separation loop: run `separator_function` on the
segment, then push the segment onto `collected_segments`. -/
def sepStep (polarity : Polarity) (st : SepState) (segment : Segment) : Option SepState :=
  (separatorFunction polarity st segment.endPoint segment.info).map fun st =>
    { st with collected_segments := st.collected_segments ++ [segment] }

/-- The separation loop of `Shape::convert_to_geo_polygon` over a list of
segments. -/
def runSeparation (polarity : Polarity) : SepState → List Segment → Option SepState
  | st, [] => some st
  | st, segment :: rest =>
    match sepStep polarity st segment with
    | some st => runSeparation polarity st rest
    | none => none

/-- The hole-separation phase of `Shape::convert_to_geo_polygon`: returns
the extracted interior sub-shapes and the remaining outer shape (the Rust
code pushes the latter last and pops it as the exterior ring). -/
def separateShapes (s : Shape) : Option (List Shape × Shape) :=
  (runSeparation s.polarity (SepState.mk s.starting_point [] [] []) s.segments).map
    fun st => (st.shapes, Shape.mk s.polarity s.starting_point st.collected_segments)

/-- A closed dark square contour that dips into an interior square hole
through a doubled connector edge: the hole is extracted by the
repeatable-segment rule and the 2-segment connector loop is discarded. -/
def exHoleShape : Shape :=
  { polarity := .dark
    starting_point := (0, 0)
    segments :=
      [ .line (4, 0), .line (4, 4), .line (2, 4), .line (2, 2),
        .line (3, 2), .line (3, 3), .line (2, 3), .line (2, 2),
        .line (2, 4), .line (0, 4), .line (0, 0) ] }

/-! ## Gerber plotting state, attributes and regions (`gerber_file.rs`) -/

/-- Model of `gerber_file::DrawMode`. -/
inductive DrawMode : Type
  | linear
  | clockwise
  | counterClockwise
deriving DecidableEq

/-- Model of `parsing::gerber::MirroringMode`. -/
inductive MirroringMode : Type
  | noMirroring
  | x
  | y
  | xAndY
deriving DecidableEq

/-- An attribute table of `PlottingContext`
(`HashMap<&str, Vec<Span>>`), modelled as a partial map from the
attribute name to its values. -/
abbrev AttrTable : Type := String → Option (List String)

/-- Model of `HashMap::insert` on an attribute table. -/
def attrInsert (m : AttrTable) (name : String) (values : List String) : AttrTable :=
  fun k => if k = name then some values else m k

/-- Model of `HashMap::remove` on an attribute table. -/
def attrRemove (m : AttrTable) (name : String) : AttrTable :=
  fun k => if k = name then none else m k

/-- Model of `HashMap::clear` on an attribute table. -/
def attrClear : AttrTable := fun _ => none

/-- Model of `gerber_file::PlottingContext`.  The stored aperture-macro bodies and
aperture definitions are opaque to the commands modelled here, so their
payloads are type parameters; everything the modelled commands touch is a
concrete field. -/
structure PlottingContext (MacroDef ApertureDef : Type) : Type where
  user_attributes : AttrTable
  file_attributes : AttrTable
  aperture_attributes : AttrTable
  object_attributes : AttrTable
  aperture_macros : String → Option MacroDef
  aperture_definitions : ℕ → Option ApertureDef
  current_point : Vec2
  current_aperture : ℕ
  draw_mode : DrawMode
  format : GerberFormat
  polarity : Polarity
  mirroring : MirroringMode
  rotation : ℚ
  scaling : ℚ

/-- Model of `parsing::gerber::Attribute` (TF/TA/TO/TD); spans are owned strings
here. -/
inductive GerberAttribute : Type
  | user (name : String) (values : List String)
  | file (name : String) (values : List String)
  | aperture (name : String) (values : List String)
  | object (name : String) (values : List String)
  | delete (name : Option String)
deriving DecidableEq

/-- The `GerberCommand::Attribute` arm of `PlottingContext::process_command`. -/
def processAttribute {M A : Type} (attr : GerberAttribute)
    (ctx : PlottingContext M A) : PlottingContext M A :=
  match attr with
  | .user name values =>
    { ctx with user_attributes := attrInsert ctx.user_attributes name values }
  | .file name values =>
    { ctx with file_attributes := attrInsert ctx.file_attributes name values }
  | .aperture name values =>
    { ctx with aperture_attributes := attrInsert ctx.aperture_attributes name values }
  | .object name values =>
    { ctx with object_attributes := attrInsert ctx.object_attributes name values }
  | .delete (some name) =>
    { ctx with
        user_attributes := attrRemove ctx.user_attributes name
        aperture_attributes := attrRemove ctx.aperture_attributes name
        object_attributes := attrRemove ctx.object_attributes name }
  | .delete none =>
    { ctx with
        user_attributes := attrClear
        aperture_attributes := attrClear
        object_attributes := attrClear }

/-- Model of `parsing::gerber::Operation` (D01/D02/D03/G01/G02/G03); coordinate
spans are kept as raw strings, as in the parser. -/
inductive Operation : Type
  | plot (x y i j : Option String)
  | move (x y : Option String)
  | flash (x y : Option String)
  | linearMode
  | clockwiseMode
  | counterClockwiseMode
deriving DecidableEq

/-- Resolve one optional coordinate span against the current format,
adding the step-and-repeat offset, as the
`if let Some(x) = x { ... internalize ... + offset.x }` pattern. -/
def updateCoordinate (fmt : GerberFormat) (coordinate : Option String)
    (offsetCoordinate old : ℚ) : Except String ℚ :=
  match coordinate with
  | none => .ok old
  | some span => (internalizeCoordinateFromSpan fmt span).map (· + offsetCoordinate)

/-- Model of `PlottingContext::process_operation` (the operations legal inside a
G36 region): plots append a segment to the region shape, moves update the
current point, mode switches update the draw mode, and anything else
(a flash) is an error. -/
def processOperation {M A : Type} (ctx : PlottingContext M A) (operation : Operation)
    (shape : Shape) (offset : Vec2) :
    Except String (PlottingContext M A × Shape) := do
  match operation with
  | .plot x y i j =>
    let nextX ← updateCoordinate ctx.format x offset.1 ctx.current_point.1
    let nextY ← updateCoordinate ctx.format y offset.2 ctx.current_point.2
    let nextPoint : Vec2 := (nextX, nextY)
    let iVal ← match i with
      | some span => (internalizeCoordinateFromSpan ctx.format span).map some
      | none => pure none
    let jVal ← match j with
      | some span => (internalizeCoordinateFromSpan ctx.format span).map some
      | none => pure none
    let segment ← match ctx.draw_mode with
      | .linear => pure (Segment.line nextPoint)
      | .clockwise => do
        let iVal ← match iVal with
          | some v => pure v
          | none => throw "i parameter missing"
        let jVal ← match jVal with
          | some v => pure v
          | none => throw "j parameter missing"
        pure (Segment.clockwiseCurve nextPoint
          (ctx.current_point.1 + iVal, ctx.current_point.2 + jVal))
      | .counterClockwise => do
        let iVal ← match iVal with
          | some v => pure v
          | none => throw "i parameter missing"
        let jVal ← match jVal with
          | some v => pure v
          | none => throw "j parameter missing"
        pure (Segment.counterClockwiseCurve nextPoint
          (ctx.current_point.1 + iVal, ctx.current_point.2 + jVal))
    pure ({ ctx with current_point := nextPoint },
      { shape with segments := shape.segments ++ [segment] })
  | .move x y =>
    let nextX ← updateCoordinate ctx.format x offset.1 ctx.current_point.1
    let nextY ← updateCoordinate ctx.format y offset.2 ctx.current_point.2
    pure ({ ctx with current_point := (nextX, nextY) }, shape)
  | .linearMode => pure ({ ctx with draw_mode := .linear }, shape)
  | .clockwiseMode => pure ({ ctx with draw_mode := .clockwise }, shape)
  | .counterClockwiseMode => pure ({ ctx with draw_mode := .counterClockwise }, shape)
  | .flash _ _ => throw "Illegal operation in region."

/-- The region's opening move: `self.current_point.x = internalize(x)?`
(note: unlike `process_operation`, the step-and-repeat offset is not
added here, exactly as in the source). -/
def regionMoveTarget {M A : Type} (ctx : PlottingContext M A) (x y : Option String) :
    Except String Vec2 := do
  let newX ← match x with
    | some span => internalizeCoordinateFromSpan ctx.format span
    | none => pure ctx.current_point.1
  let newY ← match y with
    | some span => internalizeCoordinateFromSpan ctx.format span
    | none => pure ctx.current_point.2
  pure (newX, newY)

/-- Fold of `process_operation` over the remaining region operations. -/
def processRegionOperations {M A : Type} (ctx : PlottingContext M A) (shape : Shape)
    (offset : Vec2) : List Operation → Except String (PlottingContext M A × Shape)
  | [] => .ok (ctx, shape)
  | operation :: rest =>
    match processOperation ctx operation shape offset with
    | .ok (ctx, shape) => processRegionOperations ctx shape offset rest
    | .error e => .error e

/-- The `GerberCommand::Region` arm of `process_command`: the first
collected operation must be a move (which sets the current point and thus
the region shape's starting point); the remaining operations are folded
into the shape. -/
def processRegion {M A : Type} (ctx : PlottingContext M A) (operations : List Operation)
    (offset : Vec2) : Except String (PlottingContext M A × Shape) := do
  match operations with
  | .move x y :: rest =>
    let point ← regionMoveTarget ctx x y
    let ctx := { ctx with current_point := point }
    let shape : Shape :=
      { polarity := ctx.polarity, starting_point := ctx.current_point, segments := [] }
    processRegionOperations ctx shape offset rest
  | _ => throw "Region must start with a move command."

/-- The Region arm including its effect on the Gerber file's shape set:
the region shape is pushed only after every operation succeeded, so on
error the shape list is returned unchanged. -/
def processRegionIntoFile {M A : Type} (ctx : PlottingContext M A) (shapes : List Shape)
    (operations : List Operation) (offset : Vec2) :
    List Shape × Except String (PlottingContext M A) :=
  match processRegion ctx operations offset with
  | .ok (ctx, shape) => (shapes ++ [shape], .ok ctx)
  | .error e => (shapes, .error e)

/-- Whether a region's operation list opens with a move, as matched by the
`if let Some(Operation::Move { .. })` test in the Region arm. -/
def regionStartsWithMove : List Operation → Bool
  | .move _ _ :: _ => true
  | _ => false

/-- A concrete plotting context (format 3.2 metric, dark polarity). -/
def exPlottingContext : PlottingContext Unit Unit :=
  { user_attributes := fun _ => none
    file_attributes := fun k => if k = ".Part" then some ["Single"] else none
    aperture_attributes := fun _ => none
    object_attributes := fun _ => none
    aperture_macros := fun _ => none
    aperture_definitions := fun _ => none
    current_point := (0, 0)
    current_aperture := 10
    draw_mode := .linear
    format := { integer_digits := 3, decimal_digits := 2, unit_mode := .metric }
    polarity := .dark
    mirroring := .noMirroring
    rotation := 0
    scaling := 1 }

/-! ## XNC drill body parsers (`parsing/drill.rs`)

The `nom` combinators are modelled as functions
`List Char → Option (α × List Char)` returning the parsed value and the
remaining input; `none` is a parse failure. -/

/-- Model of `parsing::drill::DrillCommand` (comment spans owned). -/
inductive DrillCommand : Type
  | comment (text : String)
  | absoluteMode
  | incrementalMode
  | drillMode
  | routeMode
  | selectTool (index : ℕ)
  | drillHit (target : Vec2)
  | toolDown
  | toolUp
  | linearMove (target : Vec2)
  | clockwiseCurve (target : Vec2) (diameter : ℚ)
  | counterClockwiseCurve (target : Vec2) (diameter : ℚ)
deriving DecidableEq

/-- The result of a `nom` parser on the remaining input. -/
abbrev ParseResult (α : Type) : Type := Option (α × List Char)

/-- Model of `nom::bytes::complete::tag`. -/
def pTag (t : String) (input : List Char) : ParseResult (List Char) :=
  let tl := t.toList
  if tl.isPrefixOf input then some (tl, input.drop tl.length) else none

/-- Model of `nom::character::complete::char`. -/
def pChar (input : List Char) (wanted : Char) : ParseResult Char :=
  match input with
  | [] => none
  | c :: rest => if c = wanted then some (c, rest) else none

/-- Model of `nom::bytes::complete::take_while` (never fails). -/
def pTakeWhile (f : Char → Bool) (input : List Char) : ParseResult (List Char) :=
  some (input.takeWhile f, input.dropWhile f)

/-- Model of `nom::bytes::complete::take_while1`. -/
def pTakeWhile1 (f : Char → Bool) (input : List Char) : ParseResult (List Char) :=
  match input.takeWhile f with
  | [] => none
  | taken => some (taken, input.dropWhile f)

/-- Rust's `str::parse::<f64>` restricted to the digit/dot strings
`take_while` can produce: digits with at most one dot and at least one
digit, read exactly (`f64` rounding is immaterial at the scales checked
here, so the value is kept in `ℚ`). -/
def decimalCharsToRat (cs : List Char) : Option ℚ :=
  let intPart := cs.takeWhile fun c => decide (c ≠ '.')
  let rest := cs.drop intPart.length
  if intPart.all Char.isDigit then
    match rest with
    | [] => if intPart = [] then none else some (digitsToNat intPart : ℚ)
    | '.' :: fracPart =>
      if fracPart.all Char.isDigit ∧ (intPart ≠ [] ∨ fracPart ≠ []) then
        some ((digitsToNat intPart : ℚ) +
          (digitsToNat fracPart : ℚ) / 10 ^ fracPart.length)
      else none
    | _ => none
  else none

/-- Model of `parse_decimal`: optional sign, then the digit/dot run parsed as a
number. -/
def parseDecimal (input : List Char) : ParseResult ℚ :=
  let signResult : ℚ × List Char :=
    match input with
    | '+' :: rest => (1, rest)
    | '-' :: rest => (-1, rest)
    | _ => (1, input)
  let digits := signResult.2.takeWhile fun c => decide (c = '.') || c.isDigit
  let rest := signResult.2.drop digits.length
  match decimalCharsToRat digits with
  | some value => some (value * signResult.1, rest)
  | none => none

/-- Model of `parse_unsigned_integer`: `take_while1` of digits parsed as `usize`
(with Rust's overflow failure). -/
def parseUnsignedInteger (input : List Char) : ParseResult ℕ :=
  match pTakeWhile1 Char.isDigit input with
  | some (digits, rest) =>
    if (digitsToNat digits : ℕ) < 2 ^ 64 then some (digitsToNat digits, rest) else none
  | none => none

/-- Model of `is_space` from `parsing/drill.rs`. -/
def isDrillSpace (c : Char) : Bool :=
  c = ' ' || c = '\t' || c = '\r' || c = '\n'

/-- Model of `space`: `take_while(is_space)`, discarding the value. -/
def pSpace (input : List Char) : ParseResult Unit :=
  some ((), input.dropWhile isDrillSpace)

/-- Model of `parse_comment`: `;` then the rest of the line, then trailing space. -/
def parseDrillComment (input : List Char) : ParseResult (List Char) :=
  match pChar input ';' with
  | some (_, rest) =>
    let text := rest.takeWhile fun c => decide (c ≠ '\n')
    let rest := rest.dropWhile fun c => decide (c ≠ '\n')
    some (text, rest.dropWhile isDrillSpace)
  | none => none

/-- Model of `X<x>Y<y>` coordinate pair used by drill hits and linear moves. -/
def parseXYPair (input : List Char) : ParseResult Vec2 :=
  match pChar input 'X' with
  | none => none
  | some (_, rest) =>
    match parseDecimal rest with
    | none => none
    | some (x, rest) =>
      match pChar rest 'Y' with
      | none => none
      | some (_, rest) =>
        match parseDecimal rest with
        | none => none
        | some (y, rest) => some ((x, y), rest)

/-- Model of `X<x>Y<y>A<a>` triple used by the curve commands. -/
def parseXYATriple (input : List Char) : ParseResult (Vec2 × ℚ) :=
  match parseXYPair input with
  | none => none
  | some (target, rest) =>
    match pChar rest 'A' with
    | none => none
    | some (_, rest) =>
      match parseDecimal rest with
      | none => none
      | some (a, rest) => some ((target, a), rest)

/-- Model of `parse_clockwise_curve`: tag `G02` then `X`, `Y`, `A` fields. -/
def parseClockwiseCurve (input : List Char) : ParseResult DrillCommand :=
  match pTag "G02" input with
  | none => none
  | some (_, rest) =>
    match parseXYATriple rest with
    | none => none
    | some ((target, a), rest) => some (.clockwiseCurve target a, rest)

/-- Model of `parse_counter_clockwise_curve`.  The source tags this parser with
`"G02"` — not `"G03"` — exactly as written at
`src/parsing/drill.rs:264`. -/
def parseCounterClockwiseCurve (input : List Char) : ParseResult DrillCommand :=
  match pTag "G02" input with
  | none => none
  | some (_, rest) =>
    match parseXYATriple rest with
    | none => none
    | some ((target, a), rest) => some (.counterClockwiseCurve target a, rest)

/-- Model of `parse_linear_move`. -/
def parseLinearMove (input : List Char) : ParseResult DrillCommand :=
  match pTag "G01" input with
  | none => none
  | some (_, rest) =>
    match parseXYPair rest with
    | none => none
    | some (target, rest) => some (.linearMove target, rest)

/-- Model of `parse_select_tool`. -/
def parseSelectTool (input : List Char) : ParseResult DrillCommand :=
  match pChar input 'T' with
  | none => none
  | some (_, rest) =>
    match parseUnsignedInteger rest with
    | none => none
    | some (index, rest) => some (.selectTool index, rest)

/-- Model of `parse_drill_hit`. -/
def parseDrillHit (input : List Char) : ParseResult DrillCommand :=
  match parseXYPair input with
  | none => none
  | some (target, rest) => some (.drillHit target, rest)

/-- Helper for the `value(..., tag(...))` pattern. -/
def pTagValue (t : String) (command : DrillCommand) (input : List Char) :
    ParseResult DrillCommand :=
  match pTag t input with
  | none => none
  | some (_, rest) => some (command, rest)

/-- Model of `parse_drill_command`: the `alt` chain, tried in source order. -/
def parseDrillCommand (input : List Char) : ParseResult DrillCommand :=
  match parseDrillComment input with
  | some (text, rest) => some (.comment (String.mk text), rest)
  | none =>
  match pTagValue "G90" .absoluteMode input with
  | some r => some r
  | none =>
  match pTagValue "G90" .incrementalMode input with
  | some r => some r
  | none =>
  match pTagValue "G05" .drillMode input with
  | some r => some r
  | none =>
  match pTagValue "G00" .routeMode input with
  | some r => some r
  | none =>
  match parseSelectTool input with
  | some r => some r
  | none =>
  match parseDrillHit input with
  | some r => some r
  | none =>
  match pTagValue "M15" .toolDown input with
  | some r => some r
  | none =>
  match pTagValue "M16" .toolUp input with
  | some r => some r
  | none =>
  match parseLinearMove input with
  | some r => some r
  | none =>
  match parseClockwiseCurve input with
  | some r => some r
  | none => parseCounterClockwiseCurve input

/-- Model of `terminated(parse_drill_command, space)`. -/
def parseDrillCommandSpaced (input : List Char) : ParseResult DrillCommand :=
  match parseDrillCommand input with
  | none => none
  | some (command, rest) => some (command, rest.dropWhile isDrillSpace)

/-- Model of `many0` with explicit fuel: stops when the inner parser fails, and —
as `nom`'s `many0` does — fails on an iteration that consumes nothing. -/
def pMany0 (fuel : ℕ) (input : List Char) : ParseResult (List DrillCommand) :=
  match fuel with
  | 0 => some ([], input)
  | fuel + 1 =>
    match parseDrillCommandSpaced input with
    | none => some ([], input)
    | some (command, rest) =>
      if rest.length < input.length then
        match pMany0 fuel rest with
        | some (commands, rest) => some (command :: commands, rest)
        | none => none
      else none

/-- Model of `parse_body`: the drill body commands terminated by `M30` and
trailing space. -/
def parseDrillBody (input : List Char) : ParseResult (List DrillCommand) :=
  match pMany0 input.length input with
  | none => none
  | some (commands, rest) =>
    match pTag "M30" rest with
    | none => none
    | some (_, rest) => some (commands, rest.dropWhile isDrillSpace)

/-! ## G-code emitter (`gcode_generation.rs`, `GCodeFile::to_string`)

All lengths are carried in millimetres and all speeds in millimetres per
second (the `uom` SI values of the source); the `get::<mil>` /
`get::<inch_per_second>` conversions appear explicitly where the source
performs them. -/

/-- Model of `gcode_generation::Tool`.  Spindle lengths are mm, speeds mm/s. -/
inductive Tool : Type
  | none
  | laser (max_power : ℚ)
  | spindle (max_spindle_speed plunge_speed travel_height cut_depth : ℚ)
      (pass_depth : Option ℚ)
deriving DecidableEq

/-- Model of `gcode_generation::BoardSide`. -/
inductive BoardSide : Type
  | front
  | back
deriving DecidableEq

/-- Model of `gcode_generation::MovementType`. -/
inductive MovementType : Type
  | linear
deriving DecidableEq

/-- Model of `gcode_generation::GCommand`. -/
inductive GCommand : Type
  | equipTool (tool : Tool)
  | setRapidTransverseSpeed (speed : ℚ)
  | setWorkSpeed (speed : ℚ)
  | setPower (power : ℚ)
  | setSpindleSpeed (speed : ℚ)
  | cut (pass_index : ℕ) (movement : MovementType) (target : Vec2)
  | moveTo (target : Vec2)
  | unitMode (mode : GUnitMode)
  | includeFile (path : String)
  | setSide (side : BoardSide)
deriving DecidableEq

/-- One emitted line of G-code, a constructor per `writeln!` format
string of `GCodeFile::to_string`.  `fileContent` stands for the literal
text of a spliced include file (with its enforced trailing newline),
which lives outside this embedding. -/
inductive GLine : Type
  | g90
  | g0xy (x y : ℚ)
  | g0z (z : ℚ)
  | g0f (f : ℚ)
  | g1f (f : ℚ)
  | g1zf (z f : ℚ)
  | g1xy (x y : ℚ)
  | m3ps (p s : ℕ)
  | m4ps (p s : ℕ)
  | m3
  | m5
  | g21
  | g22
  | fileContent (path : String)
deriving DecidableEq

/-- A length (stored in mm) rendered in the current unit mode:
`get::<millimeter>` or `get::<mil>` (1 mil = 0.0254 mm). -/
def lengthInUnit (mode : GUnitMode) (lengthMM : ℚ) : ℚ :=
  match mode with
  | .metric => lengthMM
  | .imperial => lengthMM * (5000 / 127)

/-- A speed (stored in mm/s) rendered in the current unit mode:
`get::<millimeter_per_second>` or `get::<inch_per_second>`
(1 in = 25.4 mm). -/
def speedInUnit (mode : GUnitMode) (speedMMS : ℚ) : ℚ :=
  match mode with
  | .metric => speedMMS
  | .imperial => speedMMS * (5 / 127)

/-- Rust's `f64 as usize` for the percentage/PWM computations: truncation
toward zero, clamped below at 0 (the only negative inputs here are
already clamped by `abs`, and `⌊·⌋.toNat` agrees with the cast on them). -/
def ratToUsize (q : ℚ) : ℕ := (⌊q⌋).toNat

/-- The mutable locals of `GCodeFile::to_string`.  `x_offset` is the
value captured in millimetres before the loop (the initial unit mode is
metric at that point) and is never reassigned. -/
structure EmitState : Type where
  unit_mode : GUnitMode
  board_side : BoardSide
  tool_is_ready_to_cut : Bool
  work_speed : ℚ
  tool : Tool
  position : Vec2
  x_offset : ℚ
deriving DecidableEq

/-- The state at the top of `GCodeFile::to_string`, after the `G90` and
`G0 X0 Y0` header. -/
def initEmitState (x_offset : ℚ) : EmitState :=
  { unit_mode := .metric
    board_side := .front
    tool_is_ready_to_cut := false
    work_speed := 0
    tool := .none
    position := (0, 0)
    x_offset := x_offset }

/-- One iteration of the command loop of `GCodeFile::to_string`: the next
state and the lines written for this command, or the `bail!` error. -/
def processGCommand (s : EmitState) (command : GCommand) :
    Except String (EmitState × List GLine) :=
  match command with
  | .equipTool new_tool =>
    -- Disengage the tool.
    let disengage : List GLine × Bool :=
      match s.tool with
      | .none => ([], s.tool_is_ready_to_cut)
      | .laser _ =>
        if s.tool_is_ready_to_cut then ([.m5], false)
        else ([], s.tool_is_ready_to_cut)
      | .spindle _ _ travel_height _ _ =>
        if s.tool_is_ready_to_cut then
          ([.g0z (lengthInUnit s.unit_mode travel_height)], false)
        else ([], s.tool_is_ready_to_cut)
    -- Make sure that tool is still disengaged.
    let engageNew : List GLine × Bool :=
      match new_tool with
      | .none => ([], disengage.2)
      | .laser _ => ([.m5], false)
      | .spindle _ _ travel_height _ _ =>
        ([.g0z (lengthInUnit s.unit_mode travel_height)], false)
    .ok ({ s with tool := new_tool, tool_is_ready_to_cut := engageNew.2 },
      disengage.1 ++ engageNew.1)
  | .setRapidTransverseSpeed speed =>
    .ok (s, [.g0f (speedInUnit s.unit_mode speed)])
  | .setWorkSpeed speed =>
    .ok ({ s with work_speed := speed }, [.g1f (speedInUnit s.unit_mode speed)])
  | .setPower power =>
    match s.tool with
    | .laser max_power =>
      let power_ratio := power / max_power
      let percentage := ratToUsize (100 * power_ratio)
      let pwm_scale := ratToUsize (255 * power_ratio)
      -- Don't power on the laser just yet.
      .ok ({ s with tool_is_ready_to_cut := false },
        [.m3ps percentage pwm_scale, .m5])
    | _ => .error "Attempt to set power of non-laser tool."
  | .setSpindleSpeed speed =>
    match s.tool with
    | .spindle max_spindle_speed _ _ _ _ =>
      let power_ratio := speed / max_spindle_speed
      let percentage := ratToUsize (100 * |power_ratio|)
      let pwm_scale := ratToUsize (255 * |power_ratio|)
      -- Note that we let the tool start spinning immediately.
      if 0 ≤ power_ratio then
        .ok ({ s with tool_is_ready_to_cut := false }, [.m3ps percentage pwm_scale])
      else
        .ok ({ s with tool_is_ready_to_cut := false }, [.m4ps percentage pwm_scale])
    | _ => .error "Attempt to set speed of non-spindle tool."
  | .cut pass_index movement target =>
    let engage : Except String (List GLine) :=
      match s.tool with
      | .none => .error "No tool is equipped."
      | .laser _ =>
        if !s.tool_is_ready_to_cut then .ok [.m3] else .ok []
      | .spindle _ plunge_speed travel_height cut_depth pass_depth =>
        if !s.tool_is_ready_to_cut then
          let target_depth :=
            match pass_depth with
            | some pass_depth => travel_height - pass_depth * (pass_index : ℚ)
            | none => cut_depth
          .ok [.g1zf (lengthInUnit s.unit_mode target_depth)
                 (speedInUnit s.unit_mode plunge_speed),
               .g1f (speedInUnit s.unit_mode s.work_speed)]
        else .ok []
    match engage with
    | .error e => .error e
    | .ok engageLines =>
      let xUnit := lengthInUnit s.unit_mode target.1
      let yUnit := lengthInUnit s.unit_mode target.2
      let x :=
        match s.board_side with
        | .front => xUnit
        | .back => -xUnit + s.x_offset
      let cutLine :=
        match movement with
        | .linear => GLine.g1xy x yUnit
      .ok ({ s with tool_is_ready_to_cut := true, position := target },
        engageLines ++ [cutLine])
  | .moveTo target =>
    if s.position ≠ target then
      let disengage : Except String (List GLine) :=
        match s.tool with
        | .none => .error "No tool is equipped."
        | .laser _ => if s.tool_is_ready_to_cut then .ok [.m5] else .ok []
        | .spindle _ _ travel_height _ _ =>
          if s.tool_is_ready_to_cut then
            .ok [.g0z (lengthInUnit s.unit_mode travel_height)]
          else .ok []
      match disengage with
      | .error e => .error e
      | .ok disengageLines =>
        let xUnit := lengthInUnit s.unit_mode target.1
        let yUnit := lengthInUnit s.unit_mode target.2
        let x :=
          match s.board_side with
          | .front => xUnit
          | .back => -xUnit + s.x_offset
        .ok ({ s with tool_is_ready_to_cut := false, position := target },
          disengageLines ++ [.g0xy x yUnit])
    else
      -- We're already there.
      .ok ({ s with tool_is_ready_to_cut := false }, [])
  | .unitMode new_mode =>
    .ok ({ s with unit_mode := new_mode },
      [match new_mode with | .metric => .g21 | .imperial => .g22])
  | .includeFile path => .ok (s, [.fileContent path])
  | .setSide new_side => .ok ({ s with board_side := new_side }, [])

/-- The command loop of `GCodeFile::to_string`, accumulating emitted
lines. -/
def emitGCommands : EmitState → List GCommand → Except String (EmitState × List GLine)
  | s, [] => .ok (s, [])
  | s, command :: rest =>
    match processGCommand s command with
    | .error e => .error e
    | .ok (s, lines) =>
      match emitGCommands s rest with
      | .error e => .error e
      | .ok (s, moreLines) => .ok (s, lines ++ moreLines)

/-- Model of `GCodeFile::to_string`: the `G90` / `G0 X0 Y0` header followed by the
command loop. -/
def gcodeFileToString (commands : List GCommand) (x_offset : ℚ) :
    Except String (List GLine) :=
  match emitGCommands (initEmitState x_offset) commands with
  | .error e => .error e
  | .ok (_, lines) => .ok ([.g90, .g0xy 0 0] ++ lines)

/-- Whether a command is a `Cut`. -/
def GCommand.isCut : GCommand → Bool
  | .cut _ _ _ => true
  | _ => false

/-- Whether a command is a `MoveTo`. -/
def GCommand.isMoveTo : GCommand → Bool
  | .moveTo _ => true
  | _ => false

/-- Whether a command is a `SetPower`. -/
def GCommand.isSetPower : GCommand → Bool
  | .setPower _ => true
  | _ => false

/-- Whether a command is an `EquipTool`. -/
def GCommand.isEquipTool : GCommand → Bool
  | .equipTool _ => true
  | _ => false

/-- Formalization of the spec sentence behind claim C6, in its strong
reading: in every emitted queue, between two `Cut` commands with no
intervening `MoveTo` — whatever the other commands between them — no `M5`
line is written. -/
def emitterNoM5BetweenCuts : Prop :=
  ∀ (x_offset : ℚ) (pre mid : List GCommand) (c1 c2 : GCommand)
    (s1 s2 s3 s4 : EmitState) (preLines c1Lines midLines c2Lines : List GLine),
    c1.isCut = true → c2.isCut = true →
    (∀ c ∈ mid, c.isMoveTo = false) →
    emitGCommands (initEmitState x_offset) pre = .ok (s1, preLines) →
    processGCommand s1 c1 = .ok (s2, c1Lines) →
    emitGCommands s2 mid = .ok (s3, midLines) →
    processGCommand s3 c2 = .ok (s4, c2Lines) →
    GLine.m5 ∉ midLines

/-! ## Top-level error handling (`main.rs`) -/

/-- The outcome of `trampoline()`: the whole run either succeeds or fails
with a contextual error chain. -/
inductive TrampolineOutcome : Type
  | success
  | failure (message : String)
deriving DecidableEq

/-- Model of `main`: on an error from `trampoline()` it logs a single
`"Fatal error: ..."` line and falls off the end of `fn main()`, which
returns `()` — so the process exit status is 0 in both cases.  The result
is the list of logged error lines and the process exit code. -/
def mainRun : TrampolineOutcome → List String × ℕ
  | .success => ([], 0)
  | .failure message => (["Fatal error: " ++ message], 0)

/-- Gerber format with 3 decimal digits, metric. -/
def fmtD3 : GerberFormat := { integer_digits := 3, decimal_digits := 3, unit_mode := .metric }

/-- Gerber format with 5 decimal digits, metric. -/
def fmtD5 : GerberFormat := { integer_digits := 3, decimal_digits := 5, unit_mode := .metric }

/-- The non-attribute fields of the plotting context are unchanged
between two contexts. -/
def nonAttributeStatePreserved {M A : Type} (ctx ctxN : PlottingContext M A) : Prop :=
  ctxN.aperture_macros = ctx.aperture_macros
    ∧ ctxN.aperture_definitions = ctx.aperture_definitions
    ∧ ctxN.current_point = ctx.current_point
    ∧ ctxN.current_aperture = ctx.current_aperture
    ∧ ctxN.draw_mode = ctx.draw_mode
    ∧ ctxN.format = ctx.format
    ∧ ctxN.polarity = ctx.polarity
    ∧ ctxN.mirroring = ctx.mirroring
    ∧ ctxN.rotation = ctx.rotation
    ∧ ctxN.scaling = ctx.scaling

/-- Interior sub-shape extracted from `exHoleShape`. -/
def exHole : Shape :=
  { polarity := .clear
    starting_point := (2, 2)
    segments := [.line (3, 2), .line (3, 3), .line (2, 3), .line (2, 2)] }

/-- Outer shape remaining from `exHoleShape` after extraction. -/
def exOuter : Shape :=
  { polarity := .dark
    starting_point := (0, 0)
    segments := [.line (4, 0), .line (4, 4), .line (2, 4), .line (0, 4), .line (0, 0)] }

/-- A region operation list opening with a move, then one linear plot. -/
def exRegionOps : List Operation :=
  [.move (some "150") (some "250"), .plot (some "200") (some "300") none none]
/-- The plotting context after imaging `exRegionOps` from
`exPlottingContext`. -/
def exPlottingContextAfter : PlottingContext Unit Unit :=
  { exPlottingContext with current_point := (2, 3) }
/-- The region shape imaged from `exRegionOps`: starts at the move target
(3/2, 5/2) and carries one linear segment. -/
def exRegionShape : Shape :=
  { polarity := .dark, starting_point := (3 / 2, 5 / 2), segments := [.line (2, 3)] }
/-- A back-side laser emitter state with `x_offset = 50`. -/
def exBackLaserState : EmitState :=
  { unit_mode := .metric
    board_side := .back
    tool_is_ready_to_cut := true
    work_speed := 0
    tool := .laser 10
    position := (0, 0)
    x_offset := 50 }
/-- A front-side spindle emitter state ready to plunge
(travel height 1, cut depth −1, pass depth 1/2, work speed 20). -/
def exSpindleState : EmitState :=
  { unit_mode := .metric
    board_side := .front
    tool_is_ready_to_cut := false
    work_speed := 20
    tool := .spindle 1000 5 1 (-1) (some (1 / 2))
    position := (0, 0)
    x_offset := 0 }

/-!
# Theorems
-/

/-- Any shape pushed by one `separator_function` call was either already
present or is an extracted subloop with inverted polarity and more than
two segments. -/
theorem separatorFunction_shapes (polarity : Polarity) (st st' : SepState)
    (endPoint : Vec2) (info : SegmentInfo)
    (hsf : separatorFunction polarity st endPoint info = some st') :
    ∀ h ∈ st'.shapes,
      h ∈ st.shapes ∨ (h.polarity = polarity.inverse ∧ 2 < h.segments.length) := by
  intro h hmem
  unfold separatorFunction at hsf
  split at hsf
  case h_1 startingIndex hfind =>
    split at hsf
    · exact absurd hsf (by simp)
    · exact absurd hsf (by simp)
    case h_3 n seg heq hget =>
      rw [Option.some.injEq] at hsf
      subst hsf
      simp only at hmem
      split at hmem
      · rcases List.mem_append.mp hmem with hold | hnew
        · exact Or.inl hold
        · refine Or.inr ?_
          rw [List.mem_singleton] at hnew
          subst hnew
          exact ⟨rfl, by assumption⟩
      · exact Or.inl hmem
  case h_2 hfind =>
    rw [Option.some.injEq] at hsf
    subst hsf
    exact Or.inl hmem

/-- Model of `sepStep` preserves the sub-shape property (the trailing
`collected_segments.push` does not touch `shapes`). -/
theorem sepStep_shapes (polarity : Polarity) (st st' : SepState) (segment : Segment)
    (hstep : sepStep polarity st segment = some st') :
    ∀ h ∈ st'.shapes,
      h ∈ st.shapes ∨ (h.polarity = polarity.inverse ∧ 2 < h.segments.length) := by
  intro h hmem
  unfold sepStep at hstep
  cases hsf : separatorFunction polarity st segment.endPoint segment.info with
  | none => rw [hsf] at hstep; exact absurd hstep (by simp)
  | some st1 =>
    rw [hsf, Option.map_some'] at hstep
    rw [Option.some.injEq] at hstep
    subst hstep
    exact separatorFunction_shapes polarity st st1 segment.endPoint segment.info hsf h hmem

/-- The separation loop only ever adds extracted subloops to `shapes`. -/
theorem runSeparation_shapes (polarity : Polarity) :
    ∀ (segments : List Segment) (st st' : SepState),
      runSeparation polarity st segments = some st' →
      ∀ h ∈ st'.shapes,
        h ∈ st.shapes ∨ (h.polarity = polarity.inverse ∧ 2 < h.segments.length) := by
  intro segments
  induction segments with
  | nil =>
    intro st st' hrun h hmem
    rw [runSeparation, Option.some.injEq] at hrun
    subst hrun
    exact Or.inl hmem
  | cons segment rest ih =>
    intro st st' hrun h hmem
    rw [runSeparation] at hrun
    split at hrun
    case h_1 st1 hstep =>
      rcases ih st1 st' hrun h hmem with hin | hgood
      · exact sepStep_shapes polarity st st1 segment hstep h hin
      · exact Or.inr hgood
    case h_2 => exact absurd hrun (by simp)

/-- Claim C4.  For every closed shape run through the hole-separation phase
of `Shape::convert_to_geo_polygon`, each interior subloop extracted by
the repeatable-segment rule carries the inverse of the enclosing shape's
polarity, and every extracted subloop has more than 2 segments (shorter
ones are discarded, not added). -/
theorem separate_shapes_interior_subloops (s : Shape) (_hclosed : s.isClosed = true)
    (holes : List Shape) (outer : Shape)
    (hsep : separateShapes s = some (holes, outer)) :
    ∀ h ∈ holes, h.polarity = s.polarity.inverse ∧ 2 < h.segments.length := by
  intro h hmem
  unfold separateShapes at hsep
  cases hrun : runSeparation s.polarity (SepState.mk s.starting_point [] [] []) s.segments with
  | none => rw [hrun] at hsep; exact absurd hsep (by simp)
  | some st =>
    rw [hrun, Option.map_some', Option.some.injEq, Prod.mk.injEq] at hsep
    obtain ⟨hshapes, _⟩ := hsep
    rcases runSeparation_shapes s.polarity s.segments _ st hrun h (hshapes ▸ hmem) with hin | hgood
    · exact absurd hin (by simp)
    · exact hgood

/-- Claim C4 witness: a closed square contour reaching an interior square
through a doubled connector; the 4-segment interior loop is extracted
with inverted polarity and the 2-segment connector loop is discarded. -/
theorem separate_shapes_interior_subloops_witness :
    exHoleShape.isClosed = true
      ∧ separateShapes exHoleShape = some ([exHole], exOuter)
      ∧ (exHole.polarity = exHoleShape.polarity.inverse ∧ 2 < exHole.segments.length) :=
  ⟨by decide, by decide,
    separate_shapes_interior_subloops exHoleShape (by decide) [exHole] exOuter (by decide)
      exHole (List.mem_singleton.mpr rfl)⟩

unseal Rat.mul Rat.add Rat.sub Rat.inv in
/-- Claim C1 (code_bug evidence).  `Format::internalize_coordinate_from_span`
takes the sign from `integer.signum()`, so any literal whose integer part
parses to 0 internalizes to 0 regardless of sign and fraction, and a
negative literal whose integer span is just `"-"` is an error — both
diverging from the documented value
`sign · (integer_part + fractional_part · 10^-decimal_digits)`
(`specGerberCoordinateValue`).  In particular `"-00050"` with 5 decimal
digits does not internalize to a negative value. -/
theorem internalize_coordinate_sign_loss_bug :
    internalizeCoordinateFromSpan fmtD3 "-0100" = .ok 0
      ∧ specGerberCoordinateValue fmtD3 "-0100" = some (-(1 / 10))
      ∧ internalizeCoordinateFromSpan fmtD3 "050" = .ok 0
      ∧ specGerberCoordinateValue fmtD3 "050" = some (1 / 20)
      ∧ internalizeCoordinateFromSpan fmtD5 "-00050" =
          .error "internal integer parsing error"
      ∧ specGerberCoordinateValue fmtD5 "-00050" = some (-(1 / 2000)) := by
  refine ⟨?_, ?_, ?_, ?_, ?_, ?_⟩ <;> decide

unseal Rat.mul Rat.add Rat.sub Rat.inv in
/-- Claim C5 (code_bug evidence).  `parse_counter_clockwise_curve` is tagged
`"G02"` instead of `"G03"`, so a `G02` line with X, Y and A fields parses
to a clockwise curve (the earlier alternative), a `G03` line parses as no
drill command at all, and a drill body containing a `G03` curve fails to
parse — against both the XNC sections the parser cites and the spec's
"CW/CCW curve (G02/G03)". -/
theorem drill_ccw_curve_g02_tag_bug :
    parseDrillCommand "G02X1Y1A1".toList = some (.clockwiseCurve (1, 1) 1, [])
      ∧ parseCounterClockwiseCurve "G02X1Y1A1".toList =
          some (.counterClockwiseCurve (1, 1) 1, [])
      ∧ parseDrillCommand "G03X1Y1A1".toList = none
      ∧ parseCounterClockwiseCurve "G03X1Y1A1".toList = none
      ∧ parseDrillBody "G03X1Y1A1\nM30".toList = none
      ∧ parseDrillBody "G02X1Y1A1\nM30".toList = some ([.clockwiseCurve (1, 1) 1], []) := by
  refine ⟨?_, ?_, ?_, ?_, ?_, ?_⟩ <;> decide

/-- Claim C9 (code_bug evidence).  `main` logs exactly one "Fatal error"
line when `trampoline()` fails, but returns `()` rather than a non-zero
exit status: the process exit code is 0 on every outcome, including
failures. -/
theorem main_fatal_error_exit_zero :
    mainRun (.failure "Failed to load forge file.") =
        (["Fatal error: Failed to load forge file."], 0)
      ∧ (∀ outcome, (mainRun outcome).2 = 0) := by
  refine ⟨rfl, fun outcome => ?_⟩
  cases outcome <;> rfl

/-- Claim C7 (counterexample).  Applying the line-selection filter `inner`
and then `outer` does not always yield an empty MultiPolygon: on a square
with one hole it yields the hole ring, promoted to an exterior. -/
theorem line_selection_inner_then_outer_cex :
    applyLineSelection .outer (applyLineSelection .inner exMultiPolygon) ≠ [] := by
  decide

/-- Claim C7 (amended).  Applying `outer` and then `inner` to any
MultiPolygon yields an empty MultiPolygon (outer discards every interior
ring, leaving `inner` nothing to select), and applying `all` yields the
input unchanged. -/
theorem line_selection_outer_then_inner_empty (polygon : GeoMultiPolygon) :
    applyLineSelection .inner (applyLineSelection .outer polygon) = []
      ∧ applyLineSelection .all polygon = polygon := by
  refine ⟨?_, rfl⟩
  induction polygon with
  | nil => rfl
  | cons p ps ih => simp [applyLineSelection]

/-- Claim C8.  `TD` with a name removes exactly that entry from the user,
aperture and object attribute tables; `TD` without a name clears those
three tables; in both cases the file attribute table and every other
field of the plotting context are untouched. -/
theorem attribute_delete_frame {M A : Type} (ctx : PlottingContext M A) (name : String) :
    ((processAttribute (.delete (some name)) ctx).user_attributes name = none
      ∧ (processAttribute (.delete (some name)) ctx).aperture_attributes name = none
      ∧ (processAttribute (.delete (some name)) ctx).object_attributes name = none
      ∧ (∀ k, k ≠ name →
          (processAttribute (.delete (some name)) ctx).user_attributes k
              = ctx.user_attributes k
            ∧ (processAttribute (.delete (some name)) ctx).aperture_attributes k
              = ctx.aperture_attributes k
            ∧ (processAttribute (.delete (some name)) ctx).object_attributes k
              = ctx.object_attributes k)
      ∧ (processAttribute (.delete (some name)) ctx).file_attributes
          = ctx.file_attributes
      ∧ nonAttributeStatePreserved ctx (processAttribute (.delete (some name)) ctx))
    ∧ ((∀ k, (processAttribute (.delete none) ctx).user_attributes k = none
          ∧ (processAttribute (.delete none) ctx).aperture_attributes k = none
          ∧ (processAttribute (.delete none) ctx).object_attributes k = none)
      ∧ (processAttribute (.delete none) ctx).file_attributes = ctx.file_attributes
      ∧ nonAttributeStatePreserved ctx (processAttribute (.delete none) ctx)) := by
  constructor
  · refine ⟨?_, ?_, ?_, fun k hk => ⟨?_, ?_, ?_⟩, rfl, ?_⟩
    · simp [processAttribute, attrRemove]
    · simp [processAttribute, attrRemove]
    · simp [processAttribute, attrRemove]
    · simp [processAttribute, attrRemove, hk]
    · simp [processAttribute, attrRemove, hk]
    · simp [processAttribute, attrRemove, hk]
    · exact ⟨rfl, rfl, rfl, rfl, rfl, rfl, rfl, rfl, rfl, rfl⟩
  · refine ⟨fun k => ⟨rfl, rfl, rfl⟩, rfl, ?_⟩
    exact ⟨rfl, rfl, rfl, rfl, rfl, rfl, rfl, rfl, rfl, rfl⟩

set_option linter.unreachableTactic false in
set_option linter.unusedTactic false in
/-- Folding region operations never changes the shape's starting point or
polarity — only segments are appended. -/
theorem processOperation_start_and_polarity {M A : Type} (ctx ctx' : PlottingContext M A)
    (operation : Operation) (shape shape' : Shape) (offset : Vec2)
    (hop : processOperation ctx operation shape offset = .ok (ctx', shape')) :
    shape'.starting_point = shape.starting_point ∧ shape'.polarity = shape.polarity := by
  cases operation <;>
    simp only [processOperation, bind, Except.bind, pure, Except.pure,
      throw, throwThe, MonadExceptOf.throw] at hop <;>
    (repeat' split at hop) <;>
    first
      | · simp only [Except.ok.injEq, Prod.mk.injEq] at hop
          obtain ⟨-, hshape⟩ := hop
          subst hshape
          exact ⟨rfl, rfl⟩
      | · obtain ⟨-, hshape⟩ := hop
          subst hshape
          exact ⟨rfl, rfl⟩
      | simp at hop

/-- The starting point and polarity survive the whole region-operation
fold. -/
theorem processRegionOperations_start_and_polarity {M A : Type} :
    ∀ (operations : List Operation) (ctx ctx' : PlottingContext M A)
      (shape shape' : Shape) (offset : Vec2),
      processRegionOperations ctx shape offset operations = .ok (ctx', shape') →
      shape'.starting_point = shape.starting_point ∧ shape'.polarity = shape.polarity := by
  intro operations
  induction operations with
  | nil =>
    intro ctx ctx' shape shape' offset hrun
    rw [processRegionOperations, Except.ok.injEq, Prod.mk.injEq] at hrun
    obtain ⟨-, hshape⟩ := hrun
    subst hshape
    exact ⟨rfl, rfl⟩
  | cons operation rest ih =>
    intro ctx ctx' shape shape' offset hrun
    rw [processRegionOperations] at hrun
    split at hrun
    case h_1 ctx1 shape1 hop =>
      obtain ⟨h1, h2⟩ := ih ctx1 ctx' shape1 shape' offset hrun
      obtain ⟨h3, h4⟩ := processOperation_start_and_polarity ctx ctx1 operation shape shape1 offset hop
      exact ⟨h1.trans h3, h2.trans h4⟩
    case h_2 => exact absurd hrun (by simp)

/-- Claim C10.  A G36 region whose collected operations do not open with a
move fails with "Region must start with a move command." and appends no
shape to the file's shape set; when the first operation is a move, the
move's resolved target becomes the region shape's starting point (and the
shape carries the current polarity), before any segments are collected. -/
theorem region_first_operation_move :
    (∀ (M A : Type) (ctx : PlottingContext M A) (shapes : List Shape)
      (operations : List Operation) (offset : Vec2),
      regionStartsWithMove operations = false →
      processRegionIntoFile ctx shapes operations offset =
        (shapes, .error "Region must start with a move command."))
    ∧ (∀ (M A : Type) (ctx ctx' : PlottingContext M A) (x y : Option String)
        (rest : List Operation) (offset : Vec2) (shape : Shape),
        processRegion ctx (.move x y :: rest) offset = .ok (ctx', shape) →
        ∃ point, regionMoveTarget ctx x y = .ok point
          ∧ shape.starting_point = point ∧ shape.polarity = ctx.polarity) := by
  constructor
  · intro M A ctx shapes operations offset hmove
    have herr : processRegion ctx operations offset =
        .error "Region must start with a move command." := by
      cases operations with
      | nil => rfl
      | cons op rest =>
        cases op with
        | move x y => exact absurd hmove (by simp [regionStartsWithMove])
        | plot x y i j => rfl
        | flash x y => rfl
        | linearMode => rfl
        | clockwiseMode => rfl
        | counterClockwiseMode => rfl
    rw [processRegionIntoFile, herr]
  · intro M A ctx ctx' x y rest offset shape hrun
    rw [processRegion] at hrun
    simp only [bind, Except.bind] at hrun
    split at hrun
    case h_1 => exact absurd hrun (by simp)
    case h_2 point hpoint =>
      obtain ⟨hstart, hpol⟩ := processRegionOperations_start_and_polarity rest _ ctx'
        { polarity := ctx.polarity, starting_point := point, segments := [] } shape offset hrun
      exact ⟨point, hpoint, hstart, hpol⟩

unseal Rat.mul Rat.add Rat.sub Rat.inv in
/-- Claim C10 witness: a region beginning with a plot is rejected and adds
no shape; a region beginning with a move starts its shape at the move's
resolved coordinates. -/
theorem region_first_operation_move_witness :
    (regionStartsWithMove [Operation.plot none none none none] = false
      ∧ processRegionIntoFile exPlottingContext [] [Operation.plot none none none none] (0, 0) =
          ([], .error "Region must start with a move command."))
    ∧ (processRegion exPlottingContext exRegionOps (0, 0) =
          .ok (exPlottingContextAfter, exRegionShape)
      ∧ ∃ point, regionMoveTarget exPlottingContext (some "150") (some "250") = .ok point
          ∧ exRegionShape.starting_point = point
          ∧ exRegionShape.polarity = exPlottingContext.polarity) :=
  ⟨⟨rfl, region_first_operation_move.1 Unit Unit exPlottingContext []
      [Operation.plot none none none none] (0, 0) rfl⟩,
   ⟨rfl, region_first_operation_move.2 Unit Unit exPlottingContext exPlottingContextAfter
      (some "150") (some "250") [Operation.plot (some "200") (some "300") none none] (0, 0)
      exRegionShape rfl⟩⟩

/-- Claim C2.  Under side `Back`, the coordinate line written for a `Cut`
(`G1 X.. Y..`) or a `MoveTo` (`G0 X.. Y..`) carries
`x' = −x + x_offset`; under `Front` the X is emitted unchanged; and
`SetSide` only updates the side state, emitting nothing. -/
theorem emitter_backside_mirroring :
    (∀ (s s' : EmitState) (k : ℕ) (mv : MovementType) (target : Vec2) (lines : List GLine),
      s.board_side = .back →
      processGCommand s (.cut k mv target) = .ok (s', lines) →
      lines.getLast? = some (.g1xy (-(lengthInUnit s.unit_mode target.1) + s.x_offset)
        (lengthInUnit s.unit_mode target.2)))
    ∧ (∀ (s s' : EmitState) (k : ℕ) (mv : MovementType) (target : Vec2) (lines : List GLine),
      s.board_side = .front →
      processGCommand s (.cut k mv target) = .ok (s', lines) →
      lines.getLast? = some (.g1xy (lengthInUnit s.unit_mode target.1)
        (lengthInUnit s.unit_mode target.2)))
    ∧ (∀ (s s' : EmitState) (target : Vec2) (lines : List GLine),
      s.board_side = .back → s.position ≠ target →
      processGCommand s (.moveTo target) = .ok (s', lines) →
      lines.getLast? = some (.g0xy (-(lengthInUnit s.unit_mode target.1) + s.x_offset)
        (lengthInUnit s.unit_mode target.2)))
    ∧ (∀ (s s' : EmitState) (target : Vec2) (lines : List GLine),
      s.board_side = .front → s.position ≠ target →
      processGCommand s (.moveTo target) = .ok (s', lines) →
      lines.getLast? = some (.g0xy (lengthInUnit s.unit_mode target.1)
        (lengthInUnit s.unit_mode target.2)))
    ∧ (∀ (s : EmitState) (side : BoardSide),
      processGCommand s (.setSide side) = .ok ({ s with board_side := side }, [])) := by
  refine ⟨?_, ?_, ?_, ?_, fun s side => rfl⟩
  · intro s s' k mv target lines hside h
    simp only [processGCommand] at h
    repeat' split at h
    all_goals first
      | · simp only [Except.ok.injEq, Prod.mk.injEq] at h
          obtain ⟨-, hlines⟩ := h
          subst hlines
          simp [List.getLast?_concat]
      | simp_all
  · intro s s' k mv target lines hside h
    simp only [processGCommand] at h
    repeat' split at h
    all_goals first
      | · simp only [Except.ok.injEq, Prod.mk.injEq] at h
          obtain ⟨-, hlines⟩ := h
          subst hlines
          simp [List.getLast?_concat]
      | simp_all
  · intro s s' target lines hside hne h
    simp only [processGCommand] at h
    repeat' split at h
    all_goals first
      | · simp only [Except.ok.injEq, Prod.mk.injEq] at h
          obtain ⟨-, hlines⟩ := h
          subst hlines
          simp [List.getLast?_concat]
      | simp_all
  · intro s s' target lines hside hne h
    simp only [processGCommand] at h
    repeat' split at h
    all_goals first
      | · simp only [Except.ok.injEq, Prod.mk.injEq] at h
          obtain ⟨-, hlines⟩ := h
          subst hlines
          simp [List.getLast?_concat]
      | simp_all

/-- Claim C3.  A `Cut` processed with a spindle equipped and the ready flag
down first plunges with `G1 Z<target_depth> F<plunge_speed>` then restores
`G1 F<work_speed>`, with `target_depth = travel_height − pass_depth · pass_index`
when `pass_depth` is set and `cut_depth` otherwise; while the flag is up a
`Cut` writes no plunge line, and the flag stays up after every `Cut`. -/
theorem emitter_spindle_plunge :
    (∀ (s s' : EmitState) (k : ℕ) (mv : MovementType) (target : Vec2) (lines : List GLine)
      (msp psp th cd pd : ℚ),
      s.tool = .spindle msp psp th cd (some pd) →
      s.tool_is_ready_to_cut = false →
      processGCommand s (.cut k mv target) = .ok (s', lines) →
      lines.take 2 = [.g1zf (lengthInUnit s.unit_mode (th - pd * (k : ℚ)))
          (speedInUnit s.unit_mode psp), .g1f (speedInUnit s.unit_mode s.work_speed)]
        ∧ s'.tool_is_ready_to_cut = true)
    ∧ (∀ (s s' : EmitState) (k : ℕ) (mv : MovementType) (target : Vec2) (lines : List GLine)
      (msp psp th cd : ℚ),
      s.tool = .spindle msp psp th cd none →
      s.tool_is_ready_to_cut = false →
      processGCommand s (.cut k mv target) = .ok (s', lines) →
      lines.take 2 = [.g1zf (lengthInUnit s.unit_mode cd) (speedInUnit s.unit_mode psp),
          .g1f (speedInUnit s.unit_mode s.work_speed)]
        ∧ s'.tool_is_ready_to_cut = true)
    ∧ (∀ (s s' : EmitState) (k : ℕ) (mv : MovementType) (target : Vec2) (lines : List GLine)
      (msp psp th cd : ℚ) (pd : Option ℚ),
      s.tool = .spindle msp psp th cd pd →
      s.tool_is_ready_to_cut = true →
      processGCommand s (.cut k mv target) = .ok (s', lines) →
      (∀ z f, GLine.g1zf z f ∉ lines) ∧ s'.tool_is_ready_to_cut = true) := by
  refine ⟨?_, ?_, ?_⟩
  · intro s s' k mv target lines msp psp th cd pd htool hready h
    cases mv
    simp [processGCommand, htool, hready] at h
    repeat' split at h
    all_goals
      · obtain ⟨hstate, hlines⟩ := h
        subst hlines
        subst hstate
        exact ⟨rfl, rfl⟩
  · intro s s' k mv target lines msp psp th cd htool hready h
    cases mv
    simp [processGCommand, htool, hready] at h
    repeat' split at h
    all_goals
      · obtain ⟨hstate, hlines⟩ := h
        subst hlines
        subst hstate
        exact ⟨rfl, rfl⟩
  · intro s s' k mv target lines msp psp th cd pd htool hready h
    cases mv
    simp [processGCommand, htool, hready] at h
    repeat' split at h
    all_goals
      · obtain ⟨hstate, hlines⟩ := h
        subst hlines
        subst hstate
        exact ⟨by simp, rfl⟩

/-- Any command other than `MoveTo`, `SetPower` and `EquipTool` never
writes an `M5` line (those three are the only `writeln!("M5")` sites). -/
theorem processGCommand_m5_free (s s' : EmitState) (c : GCommand) (lines : List GLine)
    (hmv : c.isMoveTo = false) (hsp : c.isSetPower = false) (het : c.isEquipTool = false)
    (h : processGCommand s c = .ok (s', lines)) : GLine.m5 ∉ lines := by
  cases c with
  | moveTo target => exact absurd hmv (by simp [GCommand.isMoveTo])
  | setPower power => exact absurd hsp (by simp [GCommand.isSetPower])
  | equipTool tool => exact absurd het (by simp [GCommand.isEquipTool])
  | cut k mv target =>
    cases mv
    cases htool : s.tool with
    | none => simp [processGCommand, htool] at h
    | laser max_power =>
      cases hready : s.tool_is_ready_to_cut <;>
        · simp [processGCommand, htool, hready] at h
          obtain ⟨-, hlines⟩ := h
          subst hlines
          simp
    | spindle max_spindle_speed plunge_speed travel_height cut_depth pass_depth =>
      cases hready : s.tool_is_ready_to_cut <;>
        · simp [processGCommand, htool, hready] at h
          obtain ⟨-, hlines⟩ := h
          subst hlines
          simp
  | _ =>
    simp only [processGCommand] at h
    repeat' split at h
    all_goals first
      | exact Except.noConfusion h
      | · simp only [Except.ok.injEq, Prod.mk.injEq] at h
          obtain ⟨-, hlines⟩ := h
          subst hlines
          simp_all

/-- The emission loop writes no `M5` over a command list free of
`MoveTo`, `SetPower` and `EquipTool`. -/
theorem emitGCommands_m5_free :
    ∀ (commands : List GCommand) (s s' : EmitState) (lines : List GLine),
      (∀ c ∈ commands, c.isMoveTo = false ∧ c.isSetPower = false ∧ c.isEquipTool = false) →
      emitGCommands s commands = .ok (s', lines) → GLine.m5 ∉ lines := by
  intro commands
  induction commands with
  | nil =>
    intro s s' lines _ hrun
    rw [emitGCommands, Except.ok.injEq, Prod.mk.injEq] at hrun
    obtain ⟨-, hlines⟩ := hrun
    subst hlines
    simp
  | cons c rest ih =>
    intro s s' lines hall hrun
    rw [emitGCommands] at hrun
    split at hrun
    case h_1 => exact Except.noConfusion hrun
    case h_2 s1 lines1 hstep =>
      split at hrun
      case h_1 => exact Except.noConfusion hrun
      case h_2 s2 lines2 hrest =>
        rw [Except.ok.injEq, Prod.mk.injEq] at hrun
        obtain ⟨-, hlines⟩ := hrun
        subst hlines
        obtain ⟨hmv, hsp, het⟩ := hall c (List.mem_cons_self c rest)
        intro hmem
        rcases List.mem_append.mp hmem with hmem | hmem
        · exact processGCommand_m5_free s s1 c lines1 hmv hsp het hstep hmem
        · exact ih s1 s2 lines2 (fun d hd => hall d (List.mem_cons_of_mem c hd)) hrest hmem

/-- Claim C6 (amended).  Between two `Cut` commands with no intervening
`MoveTo`, `SetPower` or `EquipTool` command, the emitter writes no `M5`
line (the claim's "regardless of what other commands occur" fails:
`SetPower` always arms-then-disarms with an `M5`, and `EquipTool` also
emits `M5`). -/
theorem emitter_no_m5_between_cuts (x_offset : ℚ) (pre mid : List GCommand)
    (c1 c2 : GCommand) (s1 s2 s3 s4 : EmitState)
    (preLines c1Lines midLines c2Lines : List GLine)
    (_hc1 : c1.isCut = true) (hc2 : c2.isCut = true)
    (hmid : ∀ c ∈ mid, c.isMoveTo = false ∧ c.isSetPower = false ∧ c.isEquipTool = false)
    (_hpre : emitGCommands (initEmitState x_offset) pre = .ok (s1, preLines))
    (_h1 : processGCommand s1 c1 = .ok (s2, c1Lines))
    (hmid2 : emitGCommands s2 mid = .ok (s3, midLines))
    (h2 : processGCommand s3 c2 = .ok (s4, c2Lines)) :
    GLine.m5 ∉ midLines ∧ GLine.m5 ∉ c2Lines := by
  refine ⟨emitGCommands_m5_free mid s2 s3 midLines hmid hmid2, ?_⟩
  cases c2 with
  | cut k mv target =>
    exact processGCommand_m5_free s3 s4 (.cut k mv target) c2Lines rfl rfl rfl h2
  | _ => exact absurd hc2 (by simp [GCommand.isCut])

unseal Rat.mul Rat.add Rat.sub Rat.inv in
/-- Claim C6 (counterexample).  The claim in its "regardless of other
commands" form is false: in the queue
`[EquipTool laser, Cut, SetPower, Cut]` the `SetPower` between the two
`Cut`s (with no `MoveTo` between them) writes an `M5`. -/
theorem emitter_m5_between_cuts_cex : ¬ emitterNoM5BetweenCuts := by
  intro h
  exact absurd
    (h 0 [.equipTool (.laser 10)] [.setPower 5] (.cut 0 .linear (1, 1)) (.cut 0 .linear (2, 2))
      ⟨.metric, .front, false, 0, .laser 10, (0, 0), 0⟩
      ⟨.metric, .front, true, 0, .laser 10, (1, 1), 0⟩
      ⟨.metric, .front, false, 0, .laser 10, (1, 1), 0⟩
      ⟨.metric, .front, true, 0, .laser 10, (2, 2), 0⟩
      [.m5] [.m3, .g1xy 1 1] [.m3ps 50 127, .m5] [.m3, .g1xy 2 2]
      rfl rfl (by decide) (by decide) (by decide) (by decide) (by decide))
    (by simp)

unseal Rat.mul Rat.add Rat.sub Rat.inv in
/-- Claim C2 witness: a back-side cut at x = 3 with `x_offset = 50` is
emitted at `x' = −3 + 50`, and `SetSide` emits nothing. -/
theorem emitter_backside_mirroring_witness :
    exBackLaserState.board_side = .back
      ∧ processGCommand exBackLaserState (.cut 0 .linear (3, 4)) =
          .ok ({ exBackLaserState with position := (3, 4) }, [.g1xy (-(3 : ℚ) + 50) 4])
      ∧ ([GLine.g1xy (-(3 : ℚ) + 50) 4].getLast? =
          some (.g1xy (-(lengthInUnit exBackLaserState.unit_mode 3) + exBackLaserState.x_offset)
            (lengthInUnit exBackLaserState.unit_mode 4)))
      ∧ processGCommand exBackLaserState (.setSide .front) =
          .ok ({ exBackLaserState with board_side := .front }, []) :=
  ⟨rfl, by decide,
    emitter_backside_mirroring.1 exBackLaserState { exBackLaserState with position := (3, 4) }
      0 .linear (3, 4) [.g1xy (-(3 : ℚ) + 50) 4] rfl (by decide),
    emitter_backside_mirroring.2.2.2.2 exBackLaserState .front⟩

unseal Rat.mul Rat.add Rat.sub Rat.inv in
/-- Claim C3 witness: with pass depth 1/2 and pass index 1 the plunge goes
to Z = 1 − 1/2·1 and is followed by `G1 F20`; the ready flag ends up
set. -/
theorem emitter_spindle_plunge_witness :
    exSpindleState.tool = .spindle 1000 5 1 (-1) (some (1 / 2))
      ∧ exSpindleState.tool_is_ready_to_cut = false
      ∧ processGCommand exSpindleState (.cut 1 .linear (2, 3)) =
          .ok ({ exSpindleState with tool_is_ready_to_cut := true, position := (2, 3) },
            [.g1zf (1 - 1 / 2 * ((1 : ℕ) : ℚ)) 5, .g1f 20, .g1xy 2 3])
      ∧ ([GLine.g1zf (1 - 1 / 2 * ((1 : ℕ) : ℚ)) 5, GLine.g1f 20, GLine.g1xy 2 3].take 2 =
            [.g1zf (lengthInUnit exSpindleState.unit_mode (1 - 1 / 2 * ((1 : ℕ) : ℚ)))
              (speedInUnit exSpindleState.unit_mode 5),
             .g1f (speedInUnit exSpindleState.unit_mode exSpindleState.work_speed)]
          ∧ ({ exSpindleState with tool_is_ready_to_cut := true, position := (2, 3) } :
              EmitState).tool_is_ready_to_cut = true) :=
  ⟨rfl, rfl, by decide,
    emitter_spindle_plunge.1 exSpindleState
      { exSpindleState with tool_is_ready_to_cut := true, position := (2, 3) }
      1 .linear (2, 3) [.g1zf (1 - 1 / 2 * ((1 : ℕ) : ℚ)) 5, .g1f 20, .g1xy 2 3]
      1000 5 1 (-1) (1 / 2) rfl rfl (by decide)⟩

unseal Rat.mul Rat.add Rat.sub Rat.inv in
/-- Claim C6 witness (for the amended statement): with only `SetWorkSpeed`
between the two cuts, no `M5` appears between them. -/
theorem emitter_no_m5_between_cuts_witness :
    emitGCommands (⟨.metric, .front, true, 0, .laser 10, (1, 1), 0⟩ : EmitState)
        [.setWorkSpeed 20] =
      .ok (⟨.metric, .front, true, 20, .laser 10, (1, 1), 0⟩, [.g1f 20])
      ∧ GLine.m5 ∉ ([.g1f 20] : List GLine) ∧ GLine.m5 ∉ ([.g1xy 2 2] : List GLine) :=
  ⟨by decide,
    (emitter_no_m5_between_cuts 0 [.equipTool (.laser 10)] [.setWorkSpeed 20]
      (.cut 0 .linear (1, 1)) (.cut 0 .linear (2, 2))
      ⟨.metric, .front, false, 0, .laser 10, (0, 0), 0⟩
      ⟨.metric, .front, true, 0, .laser 10, (1, 1), 0⟩
      ⟨.metric, .front, true, 20, .laser 10, (1, 1), 0⟩
      ⟨.metric, .front, true, 20, .laser 10, (2, 2), 0⟩
      [.m5] [.m3, .g1xy 1 1] [.g1f 20] [.g1xy 2 2]
      rfl rfl (by decide) (by decide) (by decide) (by decide) (by decide)).1,
    (emitter_no_m5_between_cuts 0 [.equipTool (.laser 10)] [.setWorkSpeed 20]
      (.cut 0 .linear (1, 1)) (.cut 0 .linear (2, 2))
      ⟨.metric, .front, false, 0, .laser 10, (0, 0), 0⟩
      ⟨.metric, .front, true, 0, .laser 10, (1, 1), 0⟩
      ⟨.metric, .front, true, 20, .laser 10, (1, 1), 0⟩
      ⟨.metric, .front, true, 20, .laser 10, (2, 2), 0⟩
      [.m5] [.m3, .g1xy 1 1] [.g1f 20] [.g1xy 2 2]
      rfl rfl (by decide) (by decide) (by decide) (by decide) (by decide)).2⟩
